import Mathlib

/-!
Shallow embedding of the Kalaqaar escrow settlement engine
(src/unnamed/part_003, part_004, part_006 and
src/services/functions/src/index.js), together with theorems settling the
frozen claims about its natural-language specification.

Conventions of the embedding:
* JS numbers that only ever hold exact monetary values are modelled as `ℚ`
  (for raw inputs and rates) or `ℤ` (for rounded rupee amounts).  For the
  integer ranges the claims quantify over (≤ 10^7) every JS float operation
  used by the code (`x * 0.5`, `Math.floor`, `Math.round`) is exact, so the
  rational model coincides with the float semantics.
* `Math.round x` is `⌊x + 1/2⌋`, which is exactly Mathlib's `round` on `ℚ`.
* `Math.floor` is `Int.floor`.
* Firestore documents become Lean structures; a missing field is an
  `Option`; `serverTimestamp()` is passed in as an explicit clock value.
* Fallible callable endpoints return `Except CallError`.
-/

namespace Kalaqaar

/-! ### src/unnamed/part_003 — config/settlementPolicy.js -/

def PAYOUT_STAGE1_DELAY_HOURS : ℤ := 0

def PAYOUT_STAGE2_DELAY_HOURS : ℤ := 12

def DISPUTE_WINDOW_HOURS : ℤ := 12

def REQUIRE_PAN_FOR_PAYOUT : Bool := true

def TDS_RATE_WITH_PAN : ℚ := 1 / 1000

def TDS_RATE_NO_PAN : ℚ := 5 / 100

def TDS_FY_TURNOVER_EXEMPT_LIMIT : ℚ := 500000

/-- `Number(process.env.ECO_TCS_RATE || '0.005')` — default environment. -/
def ECO_TCS_RATE : ℚ := 5 / 1000

def ECO_TCS_BORNE_BY_PLATFORM : Bool := true

/-- `Number(process.env.ESCROW_FEE_RATE || '0.016')` — default environment. -/
def ESCROW_FEE_RATE : ℚ := 16 / 1000

/-- `roundInr(value)`: `Math.round(Number(value||0))`.  On a finite rational
input this is round-half-up, i.e. Mathlib's `round`. -/
def roundInr (value : ℚ) : ℤ := round value

/-- Result record of `computeTdsForPayout`. -/
structure TdsResult where
  rate : ℚ
  amount : ℤ
  reason : String
  turnover : Option ℚ
deriving Repr, DecidableEq

/-- `computeTdsForPayout({serviceFee, panVerified, fyTurnover})` from
config/settlementPolicy.js.  `fyTurnover = none` models
`parseNumber(...) === null` (missing or non-finite turnover). -/
def computeTdsForPayout (serviceFee : ℚ) (panVerified : Bool)
    (fyTurnover : Option ℚ) : TdsResult :=
  let gross : ℤ := max 0 (roundInr serviceFee)
  let turnover := fyTurnover
  let rateReason : ℚ × String :=
    if panVerified ≠ true then (TDS_RATE_NO_PAN, "pan_missing_or_unverified")
    else
      match turnover with
      | none => (TDS_RATE_WITH_PAN, "turnover_unknown_default_tds")
      | some t =>
        if t > TDS_FY_TURNOVER_EXEMPT_LIMIT then
          (TDS_RATE_WITH_PAN, "above_turnover_threshold")
        else (0, "exempt_turnover")
  { rate := rateReason.1
    amount := max 0 (roundInr ((gross : ℚ) * rateReason.1))
    reason := rateReason.2
    turnover := turnover }

/-! ### src/unnamed/part_004 — releasePayoutNow per-recipient stage split

`const grossStage1 = Math.floor(grossTotal * 0.5);` etc.; the stage amount is
the floor half for stage1, the remainder for stage2, the whole total for a
single-stage release. -/

inductive StageKey where
  | stage1
  | stage2
  | single
deriving Repr, DecidableEq

/-- `Math.floor(total * 0.5)` on an integer rupee amount. -/
def floorHalf (total : ℤ) : ℤ := ⌊(total : ℚ) * (1 / 2)⌋

/-- `stageGross` from releasePayoutNow. -/
def stageGross (stage : StageKey) (grossTotal : ℤ) : ℤ :=
  let grossStage1 := floorHalf grossTotal
  match stage with
  | .stage1 => grossStage1
  | .stage2 => grossTotal - grossStage1
  | .single => grossTotal

/-- `stageTds` from releasePayoutNow (same floor-plus-remainder shape on the
TDS total). -/
def stageTds (stage : StageKey) (tdsTotal : ℤ) : ℤ :=
  let tdsStage1 := floorHalf tdsTotal
  match stage with
  | .stage1 => tdsStage1
  | .stage2 => tdsTotal - tdsStage1
  | .single => tdsTotal

/-- `stageTcsPlatformCost` from releasePayoutNow (same shape on the
TCS-platform-cost total). -/
def stageTcsPlatformCost (stage : StageKey) (tcsTotal : ℤ) : ℤ :=
  let tcsStage1 := floorHalf tcsTotal
  match stage with
  | .stage1 => tcsStage1
  | .stage2 => tcsTotal - tcsStage1
  | .single => tcsTotal

/-- `const stageNet = Math.max(0, stageGross - stageTds);` -/
def stageNet (stage : StageKey) (grossTotal tdsTotal : ℤ) : ℤ :=
  max 0 (stageGross stage grossTotal - stageTds stage tdsTotal)

/-! ### src/services/functions/src/index.js — computeDistribution -/

/-- Result record of `computeDistribution`. -/
structure Distribution where
  artistGross : ℚ
  artistNet : ℚ
  ecoTcsRate : ℚ
  ecoTcsWithheld : ℤ
  ecoTcsPlatformCost : ℤ
  ecoTcsPayer : String
  platformFee : ℤ
  adminAmount : ℤ
  commission : ℤ
  platformRetained : ℤ
  gstCollectedTotal : ℤ
  gstOnPlatformFee : ℤ
  gstOnCommission : ℤ
deriving Repr, DecidableEq

/-- `computeDistribution(amount)` from src/services/functions/src/index.js,
with the default configured rates (`settlementPolicy` values and default
environment).  `amt` is `Number(amount) || 0`. -/
def computeDistribution (amt : ℚ) : Distribution :=
  let GST : ℚ := 18 / 100
  let PLATFORM_FEE_RATE : ℚ := 99 / 1000
  let PLATFORM_FEE_MIN_SMALL : ℤ := 999
  let PLATFORM_FEE_MIN_MEDIUM : ℤ := 1999
  let PLATFORM_FEE_NO_MIN_THRESHOLD : ℚ := 50000
  let PLATFORM_FEE_SMALL_THRESHOLD : ℚ := 20000
  let computedPlatformFee : ℤ := round (amt * PLATFORM_FEE_RATE)
  let platformFee : ℤ :=
    if amt ≥ PLATFORM_FEE_NO_MIN_THRESHOLD then max 0 computedPlatformFee
    else
      max (if amt < PLATFORM_FEE_SMALL_THRESHOLD then PLATFORM_FEE_MIN_SMALL
           else PLATFORM_FEE_MIN_MEDIUM)
        computedPlatformFee
  let commission : ℤ := 0
  let gstOnPlatformFee : ℤ := round ((platformFee : ℚ) * GST)
  let gstOnCommission : ℤ := 0
  let gstCollectedTotal : ℤ := gstOnPlatformFee
  let ecoTcsRate : ℚ := if 0 ≤ ECO_TCS_RATE then ECO_TCS_RATE else 0
  let ecoTcsAmount : ℤ := max 0 (round (amt * ecoTcsRate))
  let tcsBorneByPlatform : Bool := ECO_TCS_BORNE_BY_PLATFORM
  let artistGross : ℚ := max 0 amt
  let artistNet : ℚ :=
    if tcsBorneByPlatform then artistGross
    else max 0 (artistGross - (ecoTcsAmount : ℚ))
  let adminAmount : ℤ := max 0 (platformFee + gstOnPlatformFee)
  let platformRetained : ℤ := adminAmount
  { artistGross := artistGross
    artistNet := artistNet
    ecoTcsRate := ecoTcsRate
    ecoTcsWithheld := if tcsBorneByPlatform then 0 else ecoTcsAmount
    ecoTcsPlatformCost := if tcsBorneByPlatform then ecoTcsAmount else 0
    ecoTcsPayer :=
      if tcsBorneByPlatform then "platform_borne" else "supplier_withheld"
    platformFee := platformFee
    adminAmount := adminAmount
    commission := commission
    platformRetained := platformRetained
    gstCollectedTotal := gstCollectedTotal
    gstOnPlatformFee := gstOnPlatformFee
    gstOnCommission := gstOnCommission }

/-- The tiered bracket minimum of the platform fee, spelled out from the
three thresholds the code uses («no minimum» above 50000). -/
def platformFeeBracketMin (amt : ℚ) : ℤ :=
  if amt < 20000 then 999 else if amt < 50000 then 1999 else 0

/-! ### src/unnamed/part_004 — identity similarity gate -/

/-- Is `c` a lowercase ASCII letter or a digit? -/
def isLowerAlnum (c : Char) : Bool :=
  (decide ('a' ≤ c) && decide (c ≤ 'z')) || (decide ('0' ≤ c) && decide (c ≤ '9'))

/-- ASCII lowercasing of one character (`String.prototype.toLowerCase` on the
ASCII range the identity data uses). -/
def toLowerChar (c : Char) : Char :=
  if 'A' ≤ c ∧ c ≤ 'Z' then Char.ofNat (c.toNat + 32) else c

/-- One character of `normalizeIdentityName`: lowercase, then replace every
character outside `[a-z0-9\s]` by a space.  Mapping every non-alphanumeric
character (whitespace included) to a space gives the same final tokenization
as the source's keep-whitespace-then-collapse order, because `\s+` runs are
collapsed to single spaces afterwards anyway. -/
def normalizeIdentityChar (c : Char) : Char :=
  let lc := toLowerChar c
  if isLowerAlnum lc then lc else ' '

/-- Split a character list at spaces (possibly producing empty chunks, as
`split` does around leading/trailing/doubled separators). -/
def splitAtSpaces : List Char → List (List Char)
  | [] => [[]]
  | c :: rest =>
    match splitAtSpaces rest with
    | [] => [[]]
    | t :: ts => if c = ' ' then [] :: t :: ts else (c :: t) :: ts

/-- The token list of `normalizeIdentityName(value)`:
lowercase, replace non-`[a-z0-9\s]` by spaces, split on whitespace, drop
empty chunks.  The source's normalized *string* is exactly these tokens
joined by single spaces (`.replace(/\s+/g,' ').trim()`), so two normalized
strings are equal iff their token lists are equal, and a normalized string
is empty iff its token list is empty; the embedding keeps the token list. -/
def normalizeIdentityTokens (value : String) : List (List Char) :=
  (splitAtSpaces (value.data.map normalizeIdentityChar)).filter (fun t => t ≠ [])

/-- `Math.round (p / q)` for natural `p` and positive natural `q`, computed
in integer arithmetic: `⌊p/q + 1/2⌋ = (2p + q) / (2q)`. -/
def jsRoundDiv (p q : ℕ) : ℕ := (2 * p + q) / (2 * q)

/-- `identitySimilarityPercent(left, right)` from src/unnamed/part_004.
`score = (2*overlap) / (aTokens.size + bTokens.size)`;
`Math.round(score * 100)` is `jsRoundDiv (200*overlap) (sizes)`
(see `jsRoundDiv_eq_round`). -/
def identitySimilarityPercent (left right : String) : ℤ :=
  let a := normalizeIdentityTokens left
  let b := normalizeIdentityTokens right
  if a = [] ∨ b = [] then 0
  else if a = b then 100
  else
    let aTokens := a.dedup
    let bTokens := b.dedup
    if aTokens.length = 0 ∨ bTokens.length = 0 then 0
    else
      let overlap := (aTokens.filter (fun t => bTokens.contains t)).length
      (jsRoundDiv (200 * overlap) (aTokens.length + bTokens.length) : ℤ)

/-- The KYC/profile inputs `evaluateIdentityMatch` actually reads, after the
source's field-fallback chains have been resolved: the override flag, the
registered name, the three comparison names, and the finite numeric
provider scores. -/
structure IdentityInput where
  overrideApproved : Bool
  registeredName : Option String
  panName : Option String
  upiName : Option String
  bankName : Option String
  numericScores : List ℚ
deriving Repr, DecidableEq

/-- Result record of `evaluateIdentityMatch` (the fields the claims are
about). -/
structure IdentityResult where
  passed : Bool
  reason : String
  bestNumericScore : Option ℚ
  bestSimilarity : Option ℤ
  bestSource : Option String
deriving Repr, DecidableEq

/-- `IDENTITY_MATCH_MIN_SCORE` environment default. -/
def IDENTITY_MATCH_MIN_SCORE_DEFAULT : ℚ := 70

/-- `IDENTITY_MATCH_MIN_SIMILARITY` environment default. -/
def IDENTITY_MATCH_MIN_SIMILARITY_DEFAULT : ℚ := 70

/-- One iteration of the `for (const item of comparisons)` loop:
`const score = identitySimilarityPercent(registeredName, item.value);`
followed by the strict-improvement update of
`bestSimilarity`/`bestSource`. -/
def identityBestStep (registeredName : String) (acc : ℤ × Option String)
    (item : String × String) : ℤ × Option String :=
  let score := identitySimilarityPercent registeredName item.2
  if score > acc.1 then (score, some item.1) else acc

/-- The whole best-similarity loop of `evaluateIdentityMatch`, starting from
`bestSimilarity = 0`, `bestSource = null`. -/
def identityBestSimilarity (registeredName : String)
    (comparisons : List (String × String)) : ℤ × Option String :=
  comparisons.foldl (identityBestStep registeredName) (0, none)

/-- `evaluateIdentityMatch({profile, userData})` from src/unnamed/part_004,
with the default thresholds.  The comparison list is
`[{pan}, {upi}, {bank}].filter((x) => x.value)`. -/
def evaluateIdentityMatch (inp : IdentityInput) : IdentityResult :=
  let thresholdScore := IDENTITY_MATCH_MIN_SCORE_DEFAULT
  let thresholdSimilarity := IDENTITY_MATCH_MIN_SIMILARITY_DEFAULT
  if inp.overrideApproved then
    { passed := true, reason := "identity_override",
      bestNumericScore := none, bestSimilarity := none, bestSource := none }
  else
    match inp.numericScores.max? with
    | some bestNumericScore =>
      if bestNumericScore ≥ thresholdScore then
        { passed := true, reason := "identity_score_threshold",
          bestNumericScore := some bestNumericScore,
          bestSimilarity := none, bestSource := none }
      else
        { passed := false, reason := "identity_score_below_threshold",
          bestNumericScore := some bestNumericScore,
          bestSimilarity := none, bestSource := none }
    | none =>
      let comparisons : List (String × String) :=
        ([("pan", inp.panName), ("upi", inp.upiName), ("bank", inp.bankName)]).filterMap
          (fun x => x.2.map (fun v => (x.1, v)))
      match inp.registeredName with
      | none =>
        { passed := false, reason := "identity_data_missing",
          bestNumericScore := none, bestSimilarity := none, bestSource := none }
      | some registeredName =>
        if comparisons.isEmpty then
          { passed := false, reason := "identity_data_missing",
            bestNumericScore := none, bestSimilarity := none, bestSource := none }
        else
          let best := identityBestSimilarity registeredName comparisons
          if (best.1 : ℚ) ≥ thresholdSimilarity then
            { passed := true, reason := "identity_similarity_threshold",
              bestNumericScore := none,
              bestSimilarity := some best.1, bestSource := best.2 }
          else
            { passed := false, reason := "identity_similarity_below_threshold",
              bestNumericScore := none,
              bestSimilarity := some best.1, bestSource := best.2 }

/-! ### src/unnamed/part_004 — webhook ingest and idempotency log -/

inductive LogStatus where
  | processing
  | processed
  | failed
deriving Repr, DecidableEq

/-- The `payments` document fields the payment webhook touches. -/
structure PaymentDoc where
  gatewayPaymentId : Option String
  amountPaid : ℚ
  escrowHeld : Bool
  releaseStatus : String
  status : String
  bookingId : Option String
  lastWebhookEventId : Option String
deriving Repr, DecidableEq

/-- The `bookings` document fields the payment webhook touches. -/
structure BookingPayDoc where
  clientId : String
  artistId : Option String
  vendorId : Option String
  status : String
  paymentStage : String
  amountDueLater : ℚ
  paidFull : Bool
  advancePaid : Bool
deriving Repr, DecidableEq

/-- Combined mutable state seen by one payment-webhook invocation, for the
booking/payment pair the event's `orderId` resolves to, together with the
webhook log and the fire-and-forget notifications sent so far. -/
structure WebhookState where
  log : List (String × LogStatus)
  payment : PaymentDoc
  booking : BookingPayDoc
  notifications : List (String × String)
deriving Repr, DecidableEq

/-- Status of the log document for a given event id. -/
def lookupLog (log : List (String × LogStatus)) (eventId : String) :
    Option LogStatus :=
  log.lookup eventId

/-- Merge-write of the `status` field of a log document. -/
def setLog (log : List (String × LogStatus)) (eventId : String)
    (st : LogStatus) : List (String × LogStatus) :=
  (eventId, st) :: log.filter (fun e => e.1 ≠ eventId)

/-- `eventId || \`fallback:${Date.now()}\`` (the handler's derived id is
passed in as an `Option`). -/
def safeEventId (eventId : Option String) (now : ℕ) : String :=
  eventId.getD ("fallback:" ++ toString now)

/-- `recordWebhook(eventId, payload, req, source)` from src/unnamed/part_004:
if an existing log entry has status `processed`, return `duplicate` and do
not write; otherwise merge-write the entry with status `processing`. -/
def recordWebhook (s : WebhookState) (eventId : Option String) (now : ℕ) :
    Bool × WebhookState :=
  let id := safeEventId eventId now
  match lookupLog s.log id with
  | some .processed => (true, s)
  | _ => (false, { s with log := setLog s.log id .processing })

def PAYMENT_SUCCESS_STATUSES : List String :=
  ["success", "successful", "success_webhook", "payment_success",
   "payment_success_webhook", "payment_success_webhook_v2"]

def PAYMENT_FAILURE_STATUSES : List String :=
  ["failed", "failure", "payment_failed", "payment_failure_webhook",
   "cancelled"]

/-- Effect dispatch of `handlePaymentWebhook` after the idempotency check,
for an event whose `orderId` resolved to the state's payment record.
`status` is the already-normalized (`normalizeStatus`) transaction status;
`orderAmount` is the parsed amount.  Calendar blocks, KPI counters and
admin-task side writes are outside the modelled state. -/
def dispatchPaymentEvent (s : WebhookState) (eventId : String)
    (status : Option String) (orderAmount : ℚ) (paymentId : Option String) :
    WebhookState × String :=
  match status with
  | some st =>
    if PAYMENT_SUCCESS_STATUSES.contains st then
      let payment :=
        { s.payment with
          gatewayPaymentId :=
            match paymentId with
            | some p => some p
            | none => s.payment.gatewayPaymentId
          amountPaid := if orderAmount ≠ 0 then orderAmount else s.payment.amountPaid
          escrowHeld := true
          releaseStatus := "held"
          status := "paid"
          lastWebhookEventId := some eventId }
      let stage := s.booking.paymentStage
      let dueLater := s.booking.amountDueLater
      let booking :=
        if stage = "balance" then
          { s.booking with
            status := "paid"
            paidFull := true
            paymentStage := "paid_full" }
        else if dueLater ≤ 0 then
          { s.booking with
            status := "paid"
            advancePaid := true
            paidFull := true
            paymentStage := "paid_full" }
        else { s.booking with status := "paid", advancePaid := true }
      let recipients :=
        [some s.booking.clientId, s.booking.artistId, s.booking.vendorId].filterMap
          (fun r => r.map (fun u => (u, "payment_success")))
      ({ log := setLog s.log eventId .processed
         payment := payment
         booking := booking
         notifications := s.notifications ++ recipients }, "ok")
    else if PAYMENT_FAILURE_STATUSES.contains st then
      ({ log := setLog s.log eventId .processed
         payment := { s.payment with
                      status := "failed"
                      releaseStatus := "failed"
                      lastWebhookEventId := some eventId }
         booking := { s.booking with status := "payment_failed" }
         notifications :=
           s.notifications ++ [(s.booking.clientId, "payment_failed")] },
        "failed")
    else
      ({ s with
         log := setLog s.log eventId .processed
         payment := { s.payment with lastWebhookEventId := some eventId } },
        "unhandled")
  | none =>
    ({ s with
       log := setLog s.log eventId .processed
       payment := { s.payment with lastWebhookEventId := some eventId } },
      "unhandled")

/-- `handlePaymentWebhook` from src/unnamed/part_004 (signature already
verified, method `POST`, `orderId` present and resolved): record the event
in the webhook log; on a duplicate, answer `duplicate` with no further
mutation; otherwise dispatch by normalized status. -/
def handlePaymentWebhook (s : WebhookState) (eventId : Option String)
    (status : Option String) (orderAmount : ℚ) (paymentId : Option String)
    (now : ℕ) : WebhookState × String :=
  match recordWebhook s eventId now with
  | (true, s1) => (s1, "duplicate")
  | (false, s1) =>
    dispatchPaymentEvent s1 (safeEventId eventId now) status orderAmount paymentId

/-! ### src/unnamed/part_004 — payoutScheduler stage claim transaction -/

/-- One `releasePlan.<stageKey>` record as the claim transaction sees it. -/
structure StageClaimRecord where
  status : String
  eligibleAt : Option ℤ
  startedAt : Option ℤ
deriving Repr, DecidableEq

/-- The payment-document fields the claim transaction reads and writes. -/
structure SchedPaymentDoc where
  stage1 : StageClaimRecord
  stage2 : StageClaimRecord
  releaseStatus : String
  releaseStage : Option String
deriving Repr, DecidableEq

inductive SchedStageKey where
  | stage1
  | stage2
deriving Repr, DecidableEq

def SchedStageKey.name : SchedStageKey → String
  | .stage1 => "stage1"
  | .stage2 => "stage2"

def SchedPaymentDoc.getStage (p : SchedPaymentDoc) : SchedStageKey → StageClaimRecord
  | .stage1 => p.stage1
  | .stage2 => p.stage2

def SchedPaymentDoc.setStage (p : SchedPaymentDoc) (k : SchedStageKey)
    (r : StageClaimRecord) : SchedPaymentDoc :=
  match k with
  | .stage1 => { p with stage1 := r }
  | .stage2 => { p with stage2 := r }

/-- The body of the scheduler's claim transaction (`db.runTransaction` in
`payoutScheduler.processStage`): re-read the stage; abort without any write
unless its status is still `scheduled` and `eligibleAt` exists and is not in
the future; on success write `processing`.  Returns the resulting document
and the `claimed` flag. -/
def claimStage (p : SchedPaymentDoc) (k : SchedStageKey) (now : ℤ) :
    SchedPaymentDoc × Bool :=
  let stage := p.getStage k
  if stage.status ≠ "scheduled" then (p, false)
  else
    match stage.eligibleAt with
    | none => (p, false)
    | some t =>
      if t > now then (p, false)
      else
        (({ p.setStage k
              { stage with status := "processing", startedAt := some now } with
            releaseStatus := "processing"
            releaseStage := some k.name }), true)

/-! ### src/unnamed/part_006 — dispute open / resolve -/

/-- The nested `dispute` map on a booking (merge-written, so fields set by
one operation survive the other). -/
structure DisputeRec where
  status : String
  openedBy : Option String
  message : Option String
  resolvedBy : Option String
  resolution : Option String
  note : Option String
deriving Repr, DecidableEq, Inhabited

/-- The booking fields the dispute endpoints read and write.  `status` and
`completedAt` are stored normalized (the source lowercases `status` and
converts the timestamp before comparing). -/
structure DisputeBooking where
  clientId : String
  status : String
  completedAt : Option ℤ
  payoutHold : Bool
  dispute : Option DisputeRec
deriving Repr, DecidableEq

inductive CallError where
  | invalidArgument (msg : String)
  | notFound (msg : String)
  | permissionDenied (msg : String)
  | failedPrecondition (msg : String)
deriving Repr, DecidableEq

/-- The `disputes` collection document `raiseDisputeV1` adds. -/
structure DisputeDoc where
  bookingId : String
  clientId : String
  status : String
  message : Option String
deriving Repr, DecidableEq

/-- `raiseDisputeV1` from src/unnamed/part_006 (authentication already
established; `uid` is the caller).  `now` and `completedAt` are epoch
milliseconds. -/
def raiseDisputeV1 (uid bookingId : String) (message : Option String)
    (booking : Option DisputeBooking) (now : ℤ) :
    Except CallError (DisputeBooking × DisputeDoc) :=
  if bookingId = "" then .error (.invalidArgument "bookingId is required")
  else
    match booking with
    | none => .error (.notFound "Booking not found")
    | some b =>
      if b.clientId ≠ uid then
        .error (.permissionDenied "Only the client can raise a dispute")
      else if b.status ≠ "completed" then
        .error (.failedPrecondition "Disputes can only be raised after event completion")
      else
        match b.completedAt with
        | none => .error (.failedPrecondition "Missing completion timestamp")
        | some c =>
          if now - c > DISPUTE_WINDOW_HOURS * 60 * 60 * 1000 then
            .error (.failedPrecondition "Dispute window has expired")
          else
            .ok ({ b with
                    status := "disputed"
                    payoutHold := true
                    dispute := some
                      { status := "open", openedBy := some uid,
                        message := message, resolvedBy := none,
                        resolution := none, note := none } },
                 { bookingId := bookingId, clientId := uid,
                   status := "open", message := message })

/-- A nested `releasePlan.stage*` record on the payment document.  The
scheduler reads the nested `status`/`eligibleAt` fields; dispute resolution
never actually modifies them (see `resolveDisputeV1`). -/
structure PlanStageRec where
  fraction : ℚ
  eligibleAt : Option ℤ
  status : String
  error : Option String
  allocations : Option (List (String × ℤ))
  updatedAt : Option ℤ
deriving Repr, DecidableEq

/-- A value stored in a literal (dot-containing) top-level field. -/
inductive MergeValue where
  | str (s : String)
  | time (t : ℤ)
deriving Repr, DecidableEq

/-- The payment document fields dispute resolution touches: the nested
release-plan stage records, plus any literal top-level fields whose *names*
contain dots — which is what `set(..., {merge: true})` produces when it is
given dotted string keys (the Admin SDK interprets dotted keys as nested
field paths in `update()`/`where()`, but `set()` stores them verbatim as
field names). -/
structure PlanPaymentDoc where
  stage1 : PlanStageRec
  stage2 : PlanStageRec
  literalDotFields : List (String × MergeValue)
deriving Repr, DecidableEq

/-- Merge-write of one literal top-level field (last write wins). -/
def setLitField (fields : List (String × MergeValue)) (name : String)
    (v : MergeValue) : List (String × MergeValue) :=
  (name, v) :: fields.filter (fun e => e.1 ≠ name)

/-- `FieldValue.delete()` under `set(..., {merge: true})`: removes the
literal field of that name (a no-op when absent). -/
def deleteLitField (fields : List (String × MergeValue)) (name : String) :
    List (String × MergeValue) :=
  fields.filter (fun e => e.1 ≠ name)

/-- `const unblockPayout = resolution === 'pay_provider' || resolution ===
'pay_artist' || resolution === 'split';` -/
def resolutionUnblocks (resolution : String) : Bool :=
  resolution = "pay_provider" ∨ resolution = "pay_artist" ∨ resolution = "split"

/-- `resolveDisputeV1` from src/unnamed/part_006 (admin check already
established; `adminUid` is the caller; `resolution` is the lowercased
input).  The booking write is a recursive merge.  The payment write is
`set({'releasePlan.stage2.status': 'scheduled', 'releasePlan.stage2.error':
FieldValue.delete(), 'releasePlan.stage2.updatedAt': now, ...},
{merge: true})`: because `set()` (unlike `update()`) treats dotted string
keys as literal field names, this creates/merges top-level fields *named*
`releasePlan.stage2.status` etc. and leaves the nested
`releasePlan.stage2` record — the one the scheduler queries — unchanged. -/
def resolveDisputeV1 (adminUid bookingId resolution : String)
    (note : Option String) (booking : Option DisputeBooking)
    (payment : Option PlanPaymentDoc) (now : ℤ) :
    Except CallError (DisputeBooking × Option PlanPaymentDoc) :=
  if bookingId = "" then .error (.invalidArgument "bookingId is required")
  else
    match booking with
    | none => .error (.notFound "Booking not found")
    | some b =>
      let unblockPayout := resolutionUnblocks resolution
      let d0 := b.dispute.getD default
      let b' :=
        { b with
          status := "completed"
          payoutHold := !unblockPayout
          dispute := some
            { d0 with
              status := "resolved"
              resolvedBy := some adminUid
              resolution := some (if resolution = "" then "no_action" else resolution)
              note := note } }
      let payment' :=
        if unblockPayout then
          payment.map (fun p =>
            let fields1 := setLitField p.literalDotFields
              "releasePlan.stage2.status" (.str "scheduled")
            let fields2 := deleteLitField fields1 "releasePlan.stage2.error"
            let fields3 := setLitField fields2
              "releasePlan.stage2.updatedAt" (.time now)
            { p with literalDotFields := fields3 })
        else payment
      .ok (b', payment')

/-! ### src/unnamed/part_004 — releasePayout (release-plan creation) -/

/-- One stage of the release plan the `releasePayout` trigger writes. -/
structure NewPlanStage where
  key : String
  fraction : ℚ
  eligibleAt : ℤ
  status : String
deriving Repr, DecidableEq

/-- The plan write `releasePayout` performs on the payment document. -/
structure PlanWrite where
  releasePlanVersion : ℤ
  stage1 : NewPlanStage
  stage2 : NewPlanStage
  releaseStatus : String
deriving Repr, DecidableEq

/-- The payment-document fields `releasePayout` reads to decide whether to
arm a plan. -/
structure ArmPaymentDoc where
  escrowHeld : Bool
  releasePlanVersion : Option ℤ
  stage1EligibleAt : Option ℤ
deriving Repr, DecidableEq

/-- `releasePayout(change, context)` from src/unnamed/part_004, as the plan
write it performs (`none` = no write).  `beforeStatus`/`afterStatus` are the
booking's status before and after the triggering update; `completedAt` is
the completion time in epoch milliseconds. -/
def releasePayout (beforeStatus afterStatus : String)
    (payment : Option ArmPaymentDoc) (completedAt : ℤ) : Option PlanWrite :=
  if beforeStatus = "completed" ∨ afterStatus ≠ "completed" then none
  else
    match payment with
    | none => none
    | some p =>
      if p.escrowHeld ≠ true then none
      else
        let stage1At := completedAt + PAYOUT_STAGE1_DELAY_HOURS * 60 * 60 * 1000
        let stage2At := completedAt + PAYOUT_STAGE2_DELAY_HOURS * 60 * 60 * 1000
        if p.releasePlanVersion = some 2 ∨ p.stage1EligibleAt.isSome then none
        else
          some
            { releasePlanVersion := 2
              stage1 := { key := "stage1", fraction := 1/2,
                          eligibleAt := stage1At, status := "scheduled" }
              stage2 := { key := "stage2", fraction := 1/2,
                          eligibleAt := stage2At, status := "scheduled" }
              releaseStatus := "scheduled" }

/-! ### src/unnamed/part_004 — processPayoutJob action order -/

/-- The externally visible actions `processPayoutJob` performs, in program
order. -/
inductive PayoutAction where
  | promoSpendAttempt
  | externalCall (endpoint : String)
  | transferMapWrite (status : String)
  | paymentPayoutsUpdate
deriving Repr, DecidableEq

/-- The action sequence of `processPayoutJob(jobData)` on its non-throwing
path (payment record found, gateway calls succeed): best-effort promo spend
for artists, `addBeneficiary` gateway call, durable `payout_transfers` write
with status `requested`, `requestTransfer` gateway call, payment-document
payout/attempt update, `payout_transfers` update to `initiated`. -/
def processPayoutJobTrace (payoutType : String) : List PayoutAction :=
  (if payoutType = "artist" then [.promoSpendAttempt] else []) ++
  [.externalCall "/payout/v1/addBeneficiary",
   .transferMapWrite "requested",
   .externalCall "/payout/v1/requestTransfer",
   .paymentPayoutsUpdate,
   .transferMapWrite "initiated"]

def isExternalCall : PayoutAction → Bool
  | .externalCall _ => true
  | _ => false

/-- The claim's ordering property for a trace: the `requested` transfer-map
write precedes every external call. -/
def mapWriteBeforeAnyExternalCall (t : List PayoutAction) : Prop :=
  ∀ i j : Fin t.length, isExternalCall (t.get i) = true →
    t.get j = .transferMapWrite "requested" → (j : ℕ) < (i : ℕ)

instance (t : List PayoutAction) : Decidable (mapWriteBeforeAnyExternalCall t) := by
  unfold mapWriteBeforeAnyExternalCall
  infer_instance

deriving instance DecidableEq for Except

/-! ## Helper lemmas -/

theorem jsRoundDiv_eq_round (p q : ℕ) (hq : 0 < q) :
    (jsRoundDiv p q : ℤ) = round ((p : ℚ) / q) := by
  rw [round_eq, jsRoundDiv]
  have h : ((p : ℚ) / q + 1 / 2) = ((2 * p + q : ℕ) : ℚ) / ((2 * q : ℕ) : ℚ) := by
    have hq0 : (q : ℚ) ≠ 0 := by positivity
    push_cast
    field_simp
    ring
  rw [h, Rat.floor_natCast_div_natCast]
  push_cast
  rfl

theorem round_mono_le (x y : ℚ) (h : x ≤ y) : round x ≤ round y := by
  rw [round_eq, round_eq]
  exact Int.floor_mono (by linarith)

theorem round_nonneg_of_nonneg (x : ℚ) (h : 0 ≤ x) : 0 ≤ round x := by
  rw [round_eq]
  exact Int.le_floor.mpr (by push_cast; linarith)

theorem round_rate_le_gross (g : ℤ) (hg : 0 ≤ g) (r : ℚ) (hr0 : 0 ≤ r)
    (hr1 : r ≤ 1) : max 0 (round ((g : ℚ) * r)) ≤ g := by
  have hgq : (0 : ℚ) ≤ (g : ℚ) := Int.cast_nonneg.mpr hg
  have h1 : (g : ℚ) * r ≤ (g : ℚ) := by nlinarith
  have h2 : round ((g : ℚ) * r) ≤ round ((g : ℚ) : ℚ) := round_mono_le _ _ h1
  rw [round_intCast] at h2
  exact max_le hg h2

/-! ## Claim theorems -/

/-- C1: for every gross amount `G` in `[0, 10^7]` with fraction `0.5`, the
per-recipient stage split assigns `stage1Gross = ⌊G * 0.5⌋` and
`stage2Gross = G - stage1Gross`, so the two stages sum back to `G` exactly,
and likewise the TDS and TCS-platform-cost totals split without leakage. -/
theorem stage_split_exact (G T C : ℤ) (hG0 : 0 ≤ G) (hG1 : G ≤ 10000000) :
    stageGross .stage1 G = ⌊(G : ℚ) * (1 / 2)⌋ ∧
    stageGross .stage2 G = G - stageGross .stage1 G ∧
    stageGross .stage1 G + stageGross .stage2 G = G ∧
    stageTds .stage1 T + stageTds .stage2 T = T ∧
    stageTcsPlatformCost .stage1 C + stageTcsPlatformCost .stage2 C = C := by
  refine ⟨rfl, rfl, ?_, ?_, ?_⟩ <;>
    simp only [stageGross, stageTds, stageTcsPlatformCost] <;> ring

/-- Witness for C1 at the spec's example `G = 101`: `stage1Gross = 50`,
`stage2Gross = 51`, and the split sums back to 101. -/
theorem stage_split_exact_witness :
    ((0 : ℤ) ≤ 101 ∧ (101 : ℤ) ≤ 10000000) ∧
    stageGross .stage1 101 = 50 ∧ stageGross .stage2 101 = 51 ∧
    stageGross .stage1 101 + stageGross .stage2 101 = 101 :=
  ⟨⟨by norm_num, by norm_num⟩,
   by norm_num [stageGross, floorHalf],
   by norm_num [stageGross, floorHalf],
   (stage_split_exact 101 0 0 (by norm_num) (by norm_num)).2.2.1⟩

/-- C10: the TDS withheld for a supplier payout is a total function of
`(serviceFee, panVerified, fyTurnover)`: rate 5% without verified PAN,
0.1% with PAN but unknown or >500000 turnover, 0% with PAN and turnover
≤ 500000; the amount is `round(round(serviceFee) * rate)` clamped to be
non-negative, hence between 0 and the (clamped rounded) gross service
fee. -/
theorem computeTds_spec (fee : ℚ) (pan : Bool) (t : Option ℚ) :
    (computeTdsForPayout fee pan t).rate =
      (if pan then
        (match t with
         | none => (1 : ℚ) / 1000
         | some tv => if tv > 500000 then (1 : ℚ) / 1000 else 0)
       else (5 : ℚ) / 100) ∧
    (computeTdsForPayout fee pan t).amount =
      max 0 (round (((max 0 (round fee) : ℤ) : ℚ) * (computeTdsForPayout fee pan t).rate)) ∧
    0 ≤ (computeTdsForPayout fee pan t).amount ∧
    (computeTdsForPayout fee pan t).amount ≤ max 0 (round fee) := by
  have hg : (0 : ℤ) ≤ max 0 (round fee) := le_max_left _ _
  cases pan with
  | false =>
    refine ⟨by simp [computeTdsForPayout, TDS_RATE_NO_PAN], ?_, ?_, ?_⟩
    · simp [computeTdsForPayout, roundInr, TDS_RATE_NO_PAN]
    · exact le_max_left _ _
    · simpa [computeTdsForPayout, roundInr, TDS_RATE_NO_PAN] using
        round_rate_le_gross (max 0 (round fee)) hg (5 / 100) (by norm_num) (by norm_num)
  | true =>
    cases t with
    | none =>
      refine ⟨by simp [computeTdsForPayout, TDS_RATE_WITH_PAN], ?_, ?_, ?_⟩
      · simp [computeTdsForPayout, roundInr, TDS_RATE_WITH_PAN]
      · exact le_max_left _ _
      · simpa [computeTdsForPayout, roundInr, TDS_RATE_WITH_PAN] using
          round_rate_le_gross (max 0 (round fee)) hg (1 / 1000) (by norm_num) (by norm_num)
    | some tv =>
      by_cases htv : tv > 500000
      · refine ⟨by simp [computeTdsForPayout, TDS_RATE_WITH_PAN,
          TDS_FY_TURNOVER_EXEMPT_LIMIT, htv], ?_, ?_, ?_⟩
        · simp [computeTdsForPayout, roundInr, TDS_RATE_WITH_PAN,
            TDS_FY_TURNOVER_EXEMPT_LIMIT, htv]
        · exact le_max_left _ _
        · simpa [computeTdsForPayout, roundInr, TDS_RATE_WITH_PAN,
            TDS_FY_TURNOVER_EXEMPT_LIMIT, htv] using
            round_rate_le_gross (max 0 (round fee)) hg (1 / 1000) (by norm_num) (by norm_num)
      · refine ⟨by simp [computeTdsForPayout, TDS_FY_TURNOVER_EXEMPT_LIMIT, htv], ?_, ?_, ?_⟩
        · simp [computeTdsForPayout, roundInr, TDS_FY_TURNOVER_EXEMPT_LIMIT, htv]
        · exact le_max_left _ _
        · simpa [computeTdsForPayout, roundInr, TDS_FY_TURNOVER_EXEMPT_LIMIT, htv] using
            round_rate_le_gross (max 0 (round fee)) hg 0 (by norm_num) (by norm_num)

/-- C2: `computeDistribution` is a pure deterministic function of the gross
amount and the configured rates; the platform fee is the maximum of the
tiered bracket minimum and `round(gross * 9.9%)`; GST is
`round(platformFee * 18%)`; ECO-TCS is `round(gross * 0.5%)` and, being
platform-borne by default, leaves the supplier net unaffected. -/
theorem computeDistribution_spec (amt : ℚ) (h0 : 0 ≤ amt) :
    computeDistribution amt = computeDistribution amt ∧
    (computeDistribution amt).platformFee =
      max (platformFeeBracketMin amt) (round (amt * (99 / 1000))) ∧
    (computeDistribution amt).gstOnPlatformFee =
      round (((computeDistribution amt).platformFee : ℚ) * (18 / 100)) ∧
    (computeDistribution amt).ecoTcsPlatformCost = round (amt * (5 / 1000)) ∧
    (computeDistribution amt).ecoTcsWithheld = 0 ∧
    (computeDistribution amt).artistNet = (computeDistribution amt).artistGross := by
  refine ⟨rfl, ?_, ?_, ?_, ?_, ?_⟩
  · simp only [computeDistribution, platformFeeBracketMin,
      ECO_TCS_RATE, ECO_TCS_BORNE_BY_PLATFORM]
    split_ifs with h1 h2 h3 h4 h5 <;> first | rfl | (exfalso; linarith)
  · simp only [computeDistribution, ECO_TCS_RATE, ECO_TCS_BORNE_BY_PLATFORM]
  · simp only [computeDistribution, ECO_TCS_RATE, ECO_TCS_BORNE_BY_PLATFORM]
    norm_num
    exact round_nonneg_of_nonneg _ (by positivity)
  · simp [computeDistribution, ECO_TCS_BORNE_BY_PLATFORM]
  · simp [computeDistribution, ECO_TCS_BORNE_BY_PLATFORM]

/-- Witness for C2 at the spec's example `distribute(11000)`: platform fee
1089, GST 196, platform-borne ECO-TCS 55, supplier net unaffected, and the
call is deterministic. -/
theorem computeDistribution_spec_witness :
    (0 : ℚ) ≤ 11000 ∧
    (computeDistribution 11000).platformFee = 1089 ∧
    (computeDistribution 11000).gstOnPlatformFee = 196 ∧
    (computeDistribution 11000).ecoTcsPlatformCost = 55 ∧
    (computeDistribution 11000).artistNet = (computeDistribution 11000).artistGross ∧
    computeDistribution 11000 = computeDistribution 11000 :=
  ⟨by norm_num,
   by norm_num [computeDistribution, ECO_TCS_RATE, ECO_TCS_BORNE_BY_PLATFORM, round_eq],
   by norm_num [computeDistribution, ECO_TCS_RATE, ECO_TCS_BORNE_BY_PLATFORM, round_eq],
   by norm_num [computeDistribution, ECO_TCS_RATE, ECO_TCS_BORNE_BY_PLATFORM, round_eq],
   (computeDistribution_spec 11000 (by norm_num)).2.2.2.2.2,
   (computeDistribution_spec 11000 (by norm_num)).1⟩

theorem claimStage_not_scheduled (p : SchedPaymentDoc) (k : SchedStageKey)
    (now : ℤ) (h : (p.getStage k).status ≠ "scheduled") :
    claimStage p k now = (p, false) := by
  simp [claimStage, h]

theorem claimStage_no_eligibleAt (p : SchedPaymentDoc) (k : SchedStageKey)
    (now : ℤ) (h : (p.getStage k).eligibleAt = none) :
    claimStage p k now = (p, false) := by
  simp only [claimStage, h]
  split <;> rfl

theorem claimStage_not_due (p : SchedPaymentDoc) (k : SchedStageKey)
    (now t : ℤ) (he : (p.getStage k).eligibleAt = some t) (h : t > now) :
    claimStage p k now = (p, false) := by
  simp only [claimStage, he]
  split
  · rfl
  · simp [h]

theorem claimStage_claims (p : SchedPaymentDoc) (k : SchedStageKey)
    (now t : ℤ) (hst : (p.getStage k).status = "scheduled")
    (he : (p.getStage k).eligibleAt = some t) (h : t ≤ now) :
    claimStage p k now =
      ({ p.setStage k
           { p.getStage k with status := "processing", startedAt := some now } with
         releaseStatus := "processing"
         releaseStage := some k.name }, true) := by
  simp only [claimStage, he]
  rw [if_neg (by simp [hst]), if_neg (by omega)]

theorem getStage_setStage (p : SchedPaymentDoc) (k : SchedStageKey)
    (r : StageClaimRecord) : (p.setStage k r).getStage k = r := by
  cases k <;> rfl

/-- C4: the scheduler's claim transaction succeeds exactly when the re-read
stage is still `scheduled` and its `eligibleAt` exists and is `≤ now`; on
any failed precondition it aborts without mutating the document, and on
success the stage moves to `processing`. -/
theorem claimStage_spec (p : SchedPaymentDoc) (k : SchedStageKey) (now : ℤ) :
    ((claimStage p k now).2 = true ↔
      (p.getStage k).status = "scheduled" ∧
      ∃ t, (p.getStage k).eligibleAt = some t ∧ t ≤ now) ∧
    ((claimStage p k now).2 = false → (claimStage p k now).1 = p) ∧
    ((claimStage p k now).2 = true →
      ((claimStage p k now).1.getStage k).status = "processing" ∧
      (claimStage p k now).1.releaseStatus = "processing") := by
  by_cases hst : (p.getStage k).status = "scheduled"
  · rcases he : (p.getStage k).eligibleAt with _ | t
    · rw [claimStage_no_eligibleAt p k now he]
      simp
    · by_cases hle : t > now
      · rw [claimStage_not_due p k now t he hle]
        refine ⟨⟨fun h => absurd h (by simp), ?_⟩, fun _ => rfl,
          fun h => absurd h (by simp)⟩
        rintro ⟨-, t', ht', hle'⟩
        rw [Option.some.injEq] at ht'
        exact (by omega : False).elim
      · rw [claimStage_claims p k now t hst he (by omega)]
        refine ⟨⟨fun _ => ⟨hst, t, rfl, by omega⟩, fun _ => rfl⟩,
          fun h => absurd h (by simp), fun _ => ⟨?_, rfl⟩⟩
        cases k <;> rfl
  · rw [claimStage_not_scheduled p k now hst]
    simp [hst]

/-- Witness for C4: a due scheduled stage is claimed; a stage already in
`processing` is skipped with the document unchanged. -/
theorem claimStage_spec_witness :
    (claimStage ⟨⟨"scheduled", some 5, none⟩, ⟨"scheduled", some 99, none⟩, "held", none⟩
        .stage1 10).2 = true ∧
    (claimStage ⟨⟨"processing", some 5, none⟩, ⟨"scheduled", some 99, none⟩, "held", none⟩
        .stage1 10).1 =
      ⟨⟨"processing", some 5, none⟩, ⟨"scheduled", some 99, none⟩, "held", none⟩ :=
  ⟨(claimStage_spec _ .stage1 10).1.mpr ⟨rfl, 5, rfl, by norm_num⟩,
   (claimStage_spec _ .stage1 10).2.1 (by decide)⟩

/-- C5: a dispute opens only on a `completed` booking within the 12-hour
window after `completedAt`, in which case the booking becomes `disputed`
with `payoutHold = true` and an open dispute record; past the window the
call rejects with the dispute-window-expired failed-precondition error and
returns no write. -/
theorem raiseDispute_spec (uid bookingId : String) (message : Option String)
    (b : DisputeBooking) (now c : ℤ)
    (hid : bookingId ≠ "") (hcl : b.clientId = uid) :
    (b.status ≠ "completed" →
      raiseDisputeV1 uid bookingId message (some b) now =
        .error (.failedPrecondition "Disputes can only be raised after event completion")) ∧
    (b.status = "completed" → b.completedAt = some c →
      (now - c ≤ 12 * 60 * 60 * 1000 →
        raiseDisputeV1 uid bookingId message (some b) now =
          .ok ({ b with
                 status := "disputed"
                 payoutHold := true
                 dispute := some
                   { status := "open", openedBy := some uid, message := message,
                     resolvedBy := none, resolution := none, note := none } },
               { bookingId := bookingId, clientId := uid, status := "open",
                 message := message })) ∧
      (now - c > 12 * 60 * 60 * 1000 →
        raiseDisputeV1 uid bookingId message (some b) now =
          .error (.failedPrecondition "Dispute window has expired"))) := by
  constructor
  · intro hst
    simp only [raiseDisputeV1]
    rw [if_neg hid, if_neg (by simp [hcl]), if_pos hst]
  · intro hst hc
    constructor
    · intro hw
      have hin : ¬ (now - c > DISPUTE_WINDOW_HOURS * 60 * 60 * 1000) := by
        simp only [DISPUTE_WINDOW_HOURS]
        omega
      simp [raiseDisputeV1, hid, hcl, hst, hc, hin]
    · intro hw
      have hout : now - c > DISPUTE_WINDOW_HOURS * 60 * 60 * 1000 := by
        simp only [DISPUTE_WINDOW_HOURS]
        omega
      simp [raiseDisputeV1, hid, hcl, hst, hc, hout]

/-- Witness for C5 at the spec's examples: raising at `completedAt + 11h`
succeeds and sets the hold; raising at `completedAt + 13h` is rejected with
the window-expired error. -/
theorem raiseDispute_spec_witness :
    raiseDisputeV1 "client1" "b1" none
        (some ⟨"client1", "completed", some 0, false, none⟩) (11 * 3600000) =
      .ok (⟨"client1", "disputed", some 0, true,
            some ⟨"open", some "client1", none, none, none, none⟩⟩,
           ⟨"b1", "client1", "open", none⟩) ∧
    raiseDisputeV1 "client1" "b1" none
        (some ⟨"client1", "completed", some 0, false, none⟩) (13 * 3600000) =
      .error (.failedPrecondition "Dispute window has expired") :=
  ⟨((raiseDispute_spec "client1" "b1" none _ (11 * 3600000) 0 (by decide) rfl).2
      rfl rfl).1 (by norm_num),
   ((raiseDispute_spec "client1" "b1" none _ (13 * 3600000) 0 (by decide) rfl).2
      rfl rfl).2 (by norm_num)⟩

/-- C6 (code bug): resolving a dispute with the unblocking resolution
`pay_artist` does return the booking to `completed` and drop the payout
hold, but the payment write — `set(..., {merge: true})` with dotted string
keys — only creates literal top-level fields named
`releasePlan.stage2.status` / `releasePlan.stage2.updatedAt`; the nested
`releasePlan.stage2` record the scheduler queries keeps status `hold` and
its `error`, so the claimed targeted reset of the blocked stage to
`scheduled` never happens. -/
theorem resolveDispute_stage2_never_reset :
    resolveDisputeV1 "admin1" "b1" "pay_artist" none
        (some ⟨"client1", "disputed", some 0, true,
               some ⟨"open", some "client1", none, none, none, none⟩⟩)
        (some ⟨⟨1/2, some 0, "enqueued", none, some [("artist1", 50)], none⟩,
               ⟨1/2, some 43200000, "hold", some "dispute_open",
                some [("artist1", 51)], none⟩, []⟩)
        999 =
      .ok (⟨"client1", "completed", some 0, false,
            some ⟨"resolved", some "client1", none, some "admin1",
                  some "pay_artist", none⟩⟩,
           some ⟨⟨1/2, some 0, "enqueued", none, some [("artist1", 50)], none⟩,
                 ⟨1/2, some 43200000, "hold", some "dispute_open",
                  some [("artist1", 51)], none⟩,
                 [("releasePlan.stage2.updatedAt", .time 999),
                  ("releasePlan.stage2.status", .str "scheduled")]⟩) := by
  rfl

/-- C8: on the first transition of a booking into `completed` with escrow
held and no existing plan, `releasePayout` writes exactly one two-stage
plan — fractions `0.5`/`0.5` summing to `1`, eligible at `completedAt + 0h`
and `completedAt + 12h`, both `scheduled` — and it writes nothing when
`releasePlanVersion` is already `2` or `stage1.eligibleAt` already exists,
or when the booking was already `completed` before the event. -/
theorem releasePayout_plan_spec (beforeStatus afterStatus : String)
    (p : ArmPaymentDoc) (completedAt : ℤ) :
    (beforeStatus ≠ "completed" → afterStatus = "completed" →
      p.escrowHeld = true → p.releasePlanVersion ≠ some 2 →
      p.stage1EligibleAt = none →
      ∃ w, releasePayout beforeStatus afterStatus (some p) completedAt = some w ∧
        w.releasePlanVersion = 2 ∧
        w.stage1.fraction = 1 / 2 ∧ w.stage2.fraction = 1 / 2 ∧
        w.stage1.fraction + w.stage2.fraction = 1 ∧
        w.stage1.eligibleAt = completedAt ∧
        w.stage2.eligibleAt = completedAt + 12 * 60 * 60 * 1000 ∧
        w.stage1.status = "scheduled" ∧ w.stage2.status = "scheduled") ∧
    (p.releasePlanVersion = some 2 ∨ p.stage1EligibleAt.isSome →
      releasePayout beforeStatus afterStatus (some p) completedAt = none) ∧
    (beforeStatus = "completed" →
      releasePayout beforeStatus afterStatus (some p) completedAt = none) := by
  refine ⟨?_, ?_, ?_⟩
  · intro hbs has hesc hv hs1
    refine ⟨{ releasePlanVersion := 2
              stage1 := { key := "stage1", fraction := 1 / 2,
                          eligibleAt := completedAt + PAYOUT_STAGE1_DELAY_HOURS * 60 * 60 * 1000,
                          status := "scheduled" }
              stage2 := { key := "stage2", fraction := 1 / 2,
                          eligibleAt := completedAt + PAYOUT_STAGE2_DELAY_HOURS * 60 * 60 * 1000,
                          status := "scheduled" }
              releaseStatus := "scheduled" },
            ?_, rfl, rfl, rfl, by norm_num, ?_, ?_, rfl, rfl⟩
    · simp [releasePayout, hbs, has, hesc, hv, hs1]
    · simp [PAYOUT_STAGE1_DELAY_HOURS]
    · simp [PAYOUT_STAGE2_DELAY_HOURS]
  · intro hdup
    by_cases hbs : beforeStatus = "completed" ∨ afterStatus ≠ "completed"
    · simp [releasePayout, hbs]
    · rcases hdup with hv | hs1
      · by_cases hesc : p.escrowHeld = true
        · simp [releasePayout, hbs, hesc, hv]
        · simp [releasePayout, hbs, hesc]
      · by_cases hesc : p.escrowHeld = true
        · simp [releasePayout, hbs, hesc, hs1]
        · simp [releasePayout, hbs, hesc]
  · intro hbs
    simp [releasePayout, hbs]

/-- Witness for C8: a fresh completion with escrow held arms the 50/50 plan
at `+0h`/`+12h`; a replayed completion event with the plan already armed
(version 2 set, stage-1 eligibleAt present) writes nothing. -/
theorem releasePayout_plan_witness :
    (∃ w, releasePayout "in_progress" "completed" (some ⟨true, none, none⟩) 1000 =
        some w ∧ w.stage1.fraction + w.stage2.fraction = 1 ∧
        w.stage1.eligibleAt = 1000 ∧ w.stage2.eligibleAt = 1000 + 43200000) ∧
    releasePayout "in_progress" "completed" (some ⟨true, some 2, some 1000⟩) 1000 = none ∧
    releasePayout "completed" "completed" (some ⟨true, none, none⟩) 1000 = none := by
  refine ⟨?_, ?_, ?_⟩
  · obtain ⟨w, hw, -, -, -, hsum, h1, h2, -, -⟩ :=
      (releasePayout_plan_spec "in_progress" "completed" ⟨true, none, none⟩ 1000).1
        (by decide) rfl rfl (by decide) rfl
    exact ⟨w, hw, hsum, h1, by norm_num [h2]⟩
  · exact (releasePayout_plan_spec "in_progress" "completed"
      ⟨true, some 2, some 1000⟩ 1000).2.1 (Or.inl rfl)
  · exact (releasePayout_plan_spec "completed" "completed"
      ⟨true, none, none⟩ 1000).2.2 rfl

/-- C9 (counterexample): in `processPayoutJob`'s action sequence the
`addBeneficiary` gateway call precedes the `payout_transfers` write with
status `requested`, so the map entry is NOT written before every external
call. -/
theorem processPayoutJob_not_before_any_external :
    ¬ mapWriteBeforeAnyExternalCall (processPayoutJobTrace "artist") := by
  decide

/-- C9 (amended): the `payout_transfers` entry with status `requested` is
written after the `addBeneficiary` gateway call but before the
`requestTransfer` gateway call, for every payout type. -/
theorem processPayoutJob_map_write_before_transfer (payoutType : String) :
    [PayoutAction.externalCall "/payout/v1/addBeneficiary",
     PayoutAction.transferMapWrite "requested",
     PayoutAction.externalCall "/payout/v1/requestTransfer"].Sublist
      (processPayoutJobTrace payoutType) := by
  rcases eq_or_ne payoutType "artist" with h | h
  · unfold processPayoutJobTrace
    rw [if_pos h]
    decide
  · unfold processPayoutJobTrace
    rw [if_neg h]
    decide

theorem lookupLog_setLog_self (log : List (String × LogStatus))
    (eventId : String) (st : LogStatus) :
    lookupLog (setLog log eventId st) eventId = some st := by
  simp [lookupLog, setLog]

/-- C3: replaying a webhook event whose log entry is already `processed`
answers `duplicate` and performs no mutation at all — the log, the
EscrowPayment, the Booking and the notification list are returned exactly
as they were; on any other log state the entry is written with status
`processing` and processing continues with the status dispatch. -/
theorem webhook_replay_idempotent (s : WebhookState) (eventId : Option String)
    (status : Option String) (orderAmount : ℚ) (paymentId : Option String)
    (now : ℕ) :
    (lookupLog s.log (safeEventId eventId now) = some .processed →
      handlePaymentWebhook s eventId status orderAmount paymentId now =
        (s, "duplicate")) ∧
    (lookupLog s.log (safeEventId eventId now) ≠ some .processed →
      (recordWebhook s eventId now).1 = false ∧
      lookupLog (recordWebhook s eventId now).2.log (safeEventId eventId now) =
        some .processing ∧
      (recordWebhook s eventId now).2.payment = s.payment ∧
      (recordWebhook s eventId now).2.booking = s.booking ∧
      handlePaymentWebhook s eventId status orderAmount paymentId now =
        dispatchPaymentEvent (recordWebhook s eventId now).2
          (safeEventId eventId now) status orderAmount paymentId) := by
  constructor
  · intro h
    simp [handlePaymentWebhook, recordWebhook, h]
  · intro h
    have hrec : recordWebhook s eventId now =
        (false, { s with log := setLog s.log (safeEventId eventId now) .processing }) := by
      simp only [recordWebhook]
    refine ⟨by rw [hrec], ?_, by rw [hrec], by rw [hrec], ?_⟩
    · rw [hrec]
      exact lookupLog_setLog_self _ _ _
    · unfold handlePaymentWebhook
      rw [hrec]

/-- Witness for C3: a replay of event `evt1` (already `processed`) leaves a
concrete state untouched and answers `duplicate`; the fresh event `evt2` is
recorded as `processing` and dispatched. -/
theorem webhook_replay_idempotent_witness :
    (handlePaymentWebhook
        ⟨[("evt1", .processed)],
         ⟨none, 0, true, "held", "paid", some "bk1", some "evt1"⟩,
         ⟨"client1", some "artist1", none, "paid", "advance", 0, true, true⟩,
         [("client1", "payment_success")]⟩
        (some "evt1") (some "success") 500 none 7 =
      (⟨[("evt1", .processed)],
        ⟨none, 0, true, "held", "paid", some "bk1", some "evt1"⟩,
        ⟨"client1", some "artist1", none, "paid", "advance", 0, true, true⟩,
        [("client1", "payment_success")]⟩, "duplicate")) ∧
    (recordWebhook
        ⟨[("evt1", .processed)],
         ⟨none, 0, true, "held", "paid", some "bk1", some "evt1"⟩,
         ⟨"client1", some "artist1", none, "paid", "advance", 0, true, true⟩,
         [("client1", "payment_success")]⟩
        (some "evt2") 7).1 = false :=
  ⟨(webhook_replay_idempotent _ (some "evt1") (some "success") 500 none 7).1
      (by decide),
   ((webhook_replay_idempotent _ (some "evt2") (some "success") 500 none 7).2
      (by decide)).1⟩

theorem simPercent_formula (l r : String) (ha : normalizeIdentityTokens l ≠ [])
    (hb : normalizeIdentityTokens r ≠ []) :
    identitySimilarityPercent l r =
      round ((2 * (((normalizeIdentityTokens l).dedup.filter
            (fun t => (normalizeIdentityTokens r).dedup.contains t)).length : ℚ) /
          (((normalizeIdentityTokens l).dedup.length : ℚ) +
            ((normalizeIdentityTokens r).dedup.length : ℚ)) * 100)) := by
  have hda : (normalizeIdentityTokens l).dedup ≠ [] := by
    rw [ne_eq, List.dedup_eq_nil]
    exact ha
  have hdb : (normalizeIdentityTokens r).dedup ≠ [] := by
    rw [ne_eq, List.dedup_eq_nil]
    exact hb
  have hla : 0 < (normalizeIdentityTokens l).dedup.length := List.length_pos.mpr hda
  have hlb : 0 < (normalizeIdentityTokens r).dedup.length := List.length_pos.mpr hdb
  simp only [identitySimilarityPercent]
  rw [if_neg (by simp [ha, hb])]
  by_cases heq : normalizeIdentityTokens l = normalizeIdentityTokens r
  · rw [if_pos heq]
    have hfilter : ((normalizeIdentityTokens l).dedup.filter
        (fun t => (normalizeIdentityTokens r).dedup.contains t)) =
        (normalizeIdentityTokens l).dedup := by
      rw [List.filter_eq_self]
      intro t ht
      rw [heq] at ht
      exact List.elem_eq_true_of_mem ht
    rw [hfilter, heq]
    have hq : ((normalizeIdentityTokens r).dedup.length : ℚ) ≠ 0 := by
      exact_mod_cast Nat.pos_iff_ne_zero.mp hlb
    have harith : (2 * (((normalizeIdentityTokens r).dedup.length : ℚ)) /
        (((normalizeIdentityTokens r).dedup.length : ℚ) +
          ((normalizeIdentityTokens r).dedup.length : ℚ)) * 100) = 100 := by
      field_simp
      ring
    rw [harith]
    norm_num [round_eq]
  · rw [if_neg heq]
    rw [if_neg (by push_neg; omega)]
    rw [jsRoundDiv_eq_round _ _ (by omega)]
    congr 1
    push_cast
    field_simp
    ring

theorem simPercent_self (l : String) (hl : normalizeIdentityTokens l ≠ []) :
    identitySimilarityPercent l l = 100 := by
  simp [identitySimilarityPercent, hl]

theorem identityBestStep_fst (rn : String) (acc : ℤ × Option String)
    (item : String × String) :
    (identityBestStep rn acc item).1 =
      max acc.1 (identitySimilarityPercent rn item.2) := by
  simp only [identityBestStep]
  split_ifs with h
  · exact (max_eq_right (le_of_lt h)).symm
  · exact (max_eq_left (by omega)).symm

theorem foldl_bestStep_fst (rn : String) :
    ∀ (l : List (String × String)) (acc : ℤ × Option String),
      (l.foldl (identityBestStep rn) acc).1 =
        l.foldl (fun a item => max a (identitySimilarityPercent rn item.2)) acc.1
  | [], _ => rfl
  | item :: rest, acc => by
    simp only [List.foldl_cons]
    rw [foldl_bestStep_fst rn rest, identityBestStep_fst]

theorem identityBestSimilarity_fst (rn : String)
    (comps : List (String × String)) :
    (identityBestSimilarity rn comps).1 =
      (comps.map (fun item => identitySimilarityPercent rn item.2)).foldl max 0 := by
  rw [identityBestSimilarity, foldl_bestStep_fst, List.foldl_map]

/-- C7: with no manual override and no numeric provider score, the identity
gate scores each available source name by the token-overlap similarity
`round(2·|A∩B| / (|A|+|B|) · 100)` over lowercase alphanumeric tokens
(identical names scoring 100), passes iff the best similarity over the
available sources reaches the default threshold 70, and otherwise blocks
with reason `identity_similarity_below_threshold`, recording the best
score. -/
theorem identity_gate_similarity (inp : IdentityInput) (rn l r : String)
    (hov : inp.overrideApproved = false)
    (hnum : inp.numericScores = [])
    (hrn : inp.registeredName = some rn)
    (hcomp : ([("pan", inp.panName), ("upi", inp.upiName),
               ("bank", inp.bankName)]).filterMap
        (fun x => x.2.map (fun v => (x.1, v))) ≠ []) :
    (normalizeIdentityTokens l ≠ [] → normalizeIdentityTokens r ≠ [] →
      identitySimilarityPercent l r =
        round ((2 * (((normalizeIdentityTokens l).dedup.filter
              (fun t => (normalizeIdentityTokens r).dedup.contains t)).length : ℚ) /
            (((normalizeIdentityTokens l).dedup.length : ℚ) +
              ((normalizeIdentityTokens r).dedup.length : ℚ)) * 100))) ∧
    (normalizeIdentityTokens l ≠ [] → identitySimilarityPercent l l = 100) ∧
    ((evaluateIdentityMatch inp).passed = true ↔
      (70 : ℚ) ≤
        ((((([("pan", inp.panName), ("upi", inp.upiName),
             ("bank", inp.bankName)]).filterMap
            (fun x => x.2.map (fun v => (x.1, v)))).map
            (fun item => identitySimilarityPercent rn item.2)).foldl max 0 : ℤ) : ℚ)) ∧
    ((evaluateIdentityMatch inp).passed = false →
      (evaluateIdentityMatch inp).reason = "identity_similarity_below_threshold" ∧
      (evaluateIdentityMatch inp).bestSimilarity =
        some (((([("pan", inp.panName), ("upi", inp.upiName),
             ("bank", inp.bankName)]).filterMap
            (fun x => x.2.map (fun v => (x.1, v)))).map
            (fun item => identitySimilarityPercent rn item.2)).foldl max 0)) := by
  have hcompE : (([("pan", inp.panName), ("upi", inp.upiName),
      ("bank", inp.bankName)]).filterMap
      (fun x => x.2.map (fun v => (x.1, v)))).isEmpty = false := by
    cases hE : (([("pan", inp.panName), ("upi", inp.upiName),
        ("bank", inp.bankName)]).filterMap
        (fun x => x.2.map (fun v => (x.1, v)))).isEmpty
    · rfl
    · exact absurd (List.isEmpty_iff.mp hE) hcomp
  have heval : evaluateIdentityMatch inp =
      (if ((identityBestSimilarity rn
            (([("pan", inp.panName), ("upi", inp.upiName),
               ("bank", inp.bankName)]).filterMap
              (fun x => x.2.map (fun v => (x.1, v))))).1 : ℚ) ≥ 70 then
        { passed := true, reason := "identity_similarity_threshold",
          bestNumericScore := none,
          bestSimilarity := some (identityBestSimilarity rn
            (([("pan", inp.panName), ("upi", inp.upiName),
               ("bank", inp.bankName)]).filterMap
              (fun x => x.2.map (fun v => (x.1, v))))).1,
          bestSource := (identityBestSimilarity rn
            (([("pan", inp.panName), ("upi", inp.upiName),
               ("bank", inp.bankName)]).filterMap
              (fun x => x.2.map (fun v => (x.1, v))))).2 }
      else
        { passed := false, reason := "identity_similarity_below_threshold",
          bestNumericScore := none,
          bestSimilarity := some (identityBestSimilarity rn
            (([("pan", inp.panName), ("upi", inp.upiName),
               ("bank", inp.bankName)]).filterMap
              (fun x => x.2.map (fun v => (x.1, v))))).1,
          bestSource := (identityBestSimilarity rn
            (([("pan", inp.panName), ("upi", inp.upiName),
               ("bank", inp.bankName)]).filterMap
              (fun x => x.2.map (fun v => (x.1, v))))).2 }) := by
    simp [evaluateIdentityMatch, hov, hnum, hrn, hcompE,
      IDENTITY_MATCH_MIN_SIMILARITY_DEFAULT]
  have hfoldmax := identityBestSimilarity_fst rn
    (([("pan", inp.panName), ("upi", inp.upiName),
       ("bank", inp.bankName)]).filterMap
      (fun x => x.2.map (fun v => (x.1, v))))
  refine ⟨fun hl hr => simPercent_formula l r hl hr,
    fun hl => simPercent_self l hl, ?_, ?_⟩
  · rw [heval]
    split_ifs with hc
    · rw [hfoldmax] at hc
      simpa using hc
    · rw [hfoldmax] at hc
      simpa using hc
  · intro hp
    rw [heval] at hp ⊢
    split_ifs at hp ⊢ with hc
    exact ⟨rfl, by rw [hfoldmax]⟩

/-- Witness for C7 at the spec's examples: "Rahul Sharma" vs PAN name
"Rahul Sharma" passes with similarity 100; "Rahul Sharma" vs PAN name
"Amit Verma" (no override, default 70% threshold) is blocked with reason
`identity_similarity_below_threshold`. -/
theorem identity_gate_witness :
    (evaluateIdentityMatch
        ⟨false, some "Rahul Sharma", some "Rahul Sharma", none, none, []⟩).passed = true ∧
    identitySimilarityPercent "Rahul Sharma" "Rahul Sharma" = 100 ∧
    (evaluateIdentityMatch
        ⟨false, some "Rahul Sharma", some "Amit Verma", none, none, []⟩).passed = false ∧
    (evaluateIdentityMatch
        ⟨false, some "Rahul Sharma", some "Amit Verma", none, none, []⟩).reason =
      "identity_similarity_below_threshold" := by
  have hA := identity_gate_similarity
    ⟨false, some "Rahul Sharma", some "Rahul Sharma", none, none, []⟩
    "Rahul Sharma" "Rahul Sharma" "Rahul Sharma" rfl rfl rfl (by decide)
  have hB := identity_gate_similarity
    ⟨false, some "Rahul Sharma", some "Amit Verma", none, none, []⟩
    "Rahul Sharma" "Rahul Sharma" "Amit Verma" rfl rfl rfl (by decide)
  have hpB : (evaluateIdentityMatch
      ⟨false, some "Rahul Sharma", some "Amit Verma", none, none, []⟩).passed = false := by
    decide
  refine ⟨?_, hA.2.1 (by decide), hpB, (hB.2.2.2 hpB).1⟩
  refine hA.2.2.1.mpr ?_
  have h100 : (((([("pan", (some "Rahul Sharma" : Option String)),
      ("upi", (none : Option String)), ("bank", (none : Option String))]).filterMap
      (fun x => x.2.map (fun v => (x.1, v)))).map
      (fun item => identitySimilarityPercent "Rahul Sharma" item.2)).foldl max 0) = 100 := by
    decide
  rw [h100]
  norm_num

end Kalaqaar
